import Mathlib

/-!
Shallow embedding of tensorlayer/layers/convolution/separable_conv.py.

The file models the two layer classes SeparableConv1d and SeparableConv2d:
their constructors (with the two configuration checks), their string
summaries, and their call methods.  Tensor arithmetic is out of scope for
the layer code itself (the convolution is delegated to the external
framework primitive), so tensors are flat lists of integers and the numeric
effect of the separable-convolution primitive is abstracted by a function
argument; everything the layer code itself does (validation, attribute
storage, variable bookkeeping, activation application, registration) is
modelled faithfully, statement by statement.
-/

/-- Tensors, abstracted as flat lists of integer values. -/
abbrev Tensor := List Int

/-- A variable-initializer object of the external framework, identified by a
symbolic name.  `zerosInit` stands for the zero-fill variant used as the
default bias initializer in both constructors. -/
structure InitSpec where
  spec_name : String
deriving DecidableEq, Repr

def zerosInit : InitSpec := ⟨"zeros"⟩

/-- An activation function: a named elementwise map on values. -/
structure Activation where
  fname : String
  fn : Int → Int

/-- A trainable framework variable, identified by the variable scope it was
created under and its local name. -/
structure Variable where
  scope : String
  vname : String
deriving DecidableEq, Repr

/-- The ambient graph: the global collection of created variables
(TF_GRAPHKEYS_VARIABLES). -/
structure Graph where
  vars : List Variable
deriving DecidableEq, Repr

def Graph.empty : Graph := ⟨[]⟩

/-- tf.get_collection(TF_GRAPHKEYS_VARIABLES, scope=s): the variables of the
global collection that live in scope s. -/
def getCollection (g : Graph) (s : String) : List Variable :=
  g.vars.filter (fun v => v.scope == s)

/-- The two ValueError configuration failures raised by the constructors. -/
inductive TLError where
  | invalidDataFormat
  | invalidPadding
deriving DecidableEq, Repr

/-- Errors a method call can surface: a missing-attribute access, or a
configuration ValueError. -/
inductive PyError where
  | attributeError
  | valueError (e : TLError)
deriving DecidableEq, Repr

/-- Python str.lower() restricted to the ASCII strings the padding check
works with: lowercases every character. -/
def pyLower (s : String) : String := ⟨s.data.map Char.toLower⟩

/-- use_bias argument passed to the primitive:
(True if self.b_init is not None else False). -/
def useBias (b_init : Option InitSpec) : Bool :=
  if b_init.isSome then true else false

/-- Modelled from the spec: the base class helper _apply_activation.  It
applies the configured activation elementwise to the given tensor and
returns the result; with no activation configured it returns the tensor
unchanged. -/
def applyActivation (act : Option Activation) (t : Tensor) : Tensor :=
  match act with
  | some a => t.map a.fn
  | none => t

/-- Result of invoking the external separable-convolution primitive: its
output tensor and the variables it created. -/
structure PrimResult where
  output : Tensor
  created : List Variable

/-- Modelled from the spec: the external framework primitive
(tf.layers.separable_conv1d / separable_conv2d).  It performs the depthwise
then pointwise convolution — the numeric result is abstracted by primOut —
and creates the trainable variables depthwise_kernel, pointwise_kernel and,
exactly when use_bias is set, bias, all inside the given variable scope. -/
def separableConvPrim (primOut : Tensor → Tensor) (scope opName : String)
    (input : Tensor) (ub : Bool) (_trainable : Bool) : PrimResult :=
  { output := primOut input
  , created :=
      [⟨scope, opName ++ "/depthwise_kernel"⟩, ⟨scope, opName ++ "/pointwise_kernel"⟩]
      ++ (if ub then [⟨scope, opName ++ "/bias"⟩] else []) }

/-- The constructor arguments of SeparableConv1d, in source order. -/
structure Args1d where
  prev_layer : Option Nat
  n_filter : Nat
  filter_size : Nat
  strides : Nat
  padding : String
  data_format : String
  dilation_rate : Nat
  depth_multiplier : Nat
  depthwise_init : Option InitSpec
  pointwise_init : Option InitSpec
  b_init : Option InitSpec
  act : Option Activation
  name : String

/-- The default argument values of SeparableConv1d.__init__. -/
def Args1d.default : Args1d :=
  { prev_layer := none
  , n_filter := 100
  , filter_size := 3
  , strides := 1
  , padding := "valid"
  , data_format := "channels_last"
  , dilation_rate := 1
  , depth_multiplier := 1
  , depthwise_init := none
  , pointwise_init := none
  , b_init := some zerosInit
  , act := none
  , name := "separable_conv1d" }

/-- A SeparableConv1d instance: a Python object, i.e. a record of attributes
each of which may be absent (none) or bound.  The configuration attributes
are bound by __init__; inputs, outputs and local_weights are runtime
attributes bound by __call__; all_layers / all_params are the registration
lists of the layer container. -/
structure SeparableConv1d where
  prev_layer : Option (Option Nat)
  n_filter : Option Nat
  filter_size : Option Nat
  strides : Option Nat
  padding : Option String
  data_format : Option String
  dilation_rate : Option Nat
  depth_multiplier : Option Nat
  depthwise_init : Option (Option InitSpec)
  pointwise_init : Option (Option InitSpec)
  b_init : Option (Option InitSpec)
  act : Option (Option Activation)
  name : Option String
  inputs : Option Tensor
  outputs : Option Tensor
  local_weights : Option (List Variable)
  all_layers : List Tensor
  all_params : List Variable

/-- A freshly allocated instance, before __init__ has run: no attribute is
bound and the registration lists are empty. -/
def SeparableConv1d.fresh : SeparableConv1d :=
  { prev_layer := none, n_filter := none, filter_size := none, strides := none
  , padding := none, data_format := none, dilation_rate := none
  , depth_multiplier := none, depthwise_init := none, pointwise_init := none
  , b_init := none, act := none, name := none
  , inputs := none, outputs := none, local_weights := none
  , all_layers := [], all_params := [] }

/-- The instance after the thirteen attribute assignments of
SeparableConv1d.__init__ (source lines 78-90), run on a fresh instance. -/
def SeparableConv1d.ofArgs (a : Args1d) : SeparableConv1d :=
  { SeparableConv1d.fresh with
    prev_layer := some a.prev_layer
  , n_filter := some a.n_filter
  , filter_size := some a.filter_size
  , strides := some a.strides
  , padding := some a.padding
  , data_format := some a.data_format
  , dilation_rate := some a.dilation_rate
  , depth_multiplier := some a.depth_multiplier
  , depthwise_init := some a.depthwise_init
  , pointwise_init := some a.pointwise_init
  , b_init := some a.b_init
  , act := some a.act
  , name := some a.name }

/-- SeparableConv1d.__init__ run on a fresh instance: first the data_format
check, then the padding check (each raising ValueError), then the attribute
assignments.  The result is the instance as left behind, paired with the
raised error if any. -/
def SeparableConv1d.initRun (a : Args1d) : SeparableConv1d × Option TLError :=
  if a.data_format ∈ ["channels_last", "channels_first"] then
    if pyLower a.padding ∈ ["same", "valid"] then
      (SeparableConv1d.ofArgs a, none)
    else (SeparableConv1d.fresh, some TLError.invalidPadding)
  else (SeparableConv1d.fresh, some TLError.invalidDataFormat)

/-- SeparableConv1d.__call__: reads the configuration attributes (a missing
one is an AttributeError), records the predecessor output as inputs, invokes
the primitive inside the scope self.name, stores its raw output as outputs,
computes the activation of the output and discards the result (line 162
calls self._apply_activation(self.outputs) without assigning it), collects
the variables of the scope as local_weights, registers outputs in all_layers
and local_weights in all_params, and — through the force_return_self
decorator modelled from the spec — returns the instance itself. -/
def SeparableConv1d.call (l : SeparableConv1d) (primOut : Tensor → Tensor)
    (g : Graph) (prev_outputs : Tensor) (is_train : Bool) :
    Except PyError (SeparableConv1d × Graph) :=
  match l.name, l.n_filter, l.filter_size, l.strides, l.padding, l.data_format,
      l.dilation_rate, l.depth_multiplier, l.b_init, l.act with
  | some nm, some _nf, some _fs, some _st, some _pd, some _df, some _dr,
      some _dm, some b, some ac =>
    let l1 := { l with inputs := some prev_outputs }
    let prim := separableConvPrim primOut nm "separable_conv1d" prev_outputs
        (useBias b) is_train
    let g1 : Graph := { vars := g.vars ++ prim.created }
    let l2 := { l1 with outputs := some prim.output }
    let _activated := applyActivation ac prim.output
    let lw := getCollection g1 nm
    let l3 := { l2 with local_weights := some lw }
    let l4 := { l3 with all_layers := l3.all_layers ++ [prim.output]
                      , all_params := l3.all_params ++ lw }
    Except.ok (l4, g1)
  | _, _, _, _, _, _, _, _, _, _ => Except.error PyError.attributeError

/-- One try/except AttributeError block of __str__: the entry is produced
when the attribute access succeeds and omitted when it raises. -/
def optEntry {α : Type} (o : Option α) (f : α → String) : List String :=
  match o with
  | some v => [f v]
  | none => []

/-- The act entry of __str__: reading self.act may raise (entry omitted);
when bound, a named activation is printed, and None prints No Activation. -/
def actEntry (o : Option (Option Activation)) : List String :=
  match o with
  | some (some a) => ["act: " ++ a.fname]
  | some none => ["No Activation"]
  | none => []

/-- Modelled from the spec: the base class _str helper rendering the summary
from the collected per-attribute strings. -/
def strRender (cls : String) (additional : List String) : String :=
  cls ++ "(" ++ String.intercalate ", " additional ++ ")"

/-- The additional_str list built by SeparableConv1d.__str__, one guarded
entry per described attribute, in source order. -/
def SeparableConv1d.additionalStr (l : SeparableConv1d) : List String :=
  optEntry l.n_filter (fun v => "n_filter: " ++ toString v)
  ++ (optEntry l.filter_size (fun v => "filter_size: " ++ toString v)
  ++ (optEntry l.strides (fun v => "strides: " ++ toString v)
  ++ (optEntry l.padding (fun v => "padding: " ++ v)
  ++ (optEntry l.dilation_rate (fun v => "dilation_rate: " ++ toString v)
  ++ (optEntry l.depth_multiplier (fun v => "depth_multiplier: " ++ toString v)
  ++ actEntry l.act)))))

/-- SeparableConv1d.__str__: every attribute access is guarded by
try/except, so the method always returns a string. -/
def SeparableConv1d.describe (l : SeparableConv1d) : Except PyError String :=
  Except.ok (strRender "SeparableConv1d" l.additionalStr)

/-- The constructor arguments of SeparableConv2d, in source order; the
spatial arguments are pairs. -/
structure Args2d where
  prev_layer : Option Nat
  n_filter : Nat
  filter_size : Nat × Nat
  strides : Nat × Nat
  padding : String
  data_format : String
  dilation_rate : Nat × Nat
  depth_multiplier : Nat
  depthwise_init : Option InitSpec
  pointwise_init : Option InitSpec
  b_init : Option InitSpec
  act : Option Activation
  name : String

/-- The default argument values of SeparableConv2d.__init__. -/
def Args2d.default : Args2d :=
  { prev_layer := none
  , n_filter := 100
  , filter_size := (3, 3)
  , strides := (1, 1)
  , padding := "valid"
  , data_format := "channels_last"
  , dilation_rate := (1, 1)
  , depth_multiplier := 1
  , depthwise_init := none
  , pointwise_init := none
  , b_init := some zerosInit
  , act := none
  , name := "separable_conv2d" }

/-- A SeparableConv2d instance, with the same attribute layout as the 1d
class but pair-typed spatial attributes. -/
structure SeparableConv2d where
  prev_layer : Option (Option Nat)
  n_filter : Option Nat
  filter_size : Option (Nat × Nat)
  strides : Option (Nat × Nat)
  padding : Option String
  data_format : Option String
  dilation_rate : Option (Nat × Nat)
  depth_multiplier : Option Nat
  depthwise_init : Option (Option InitSpec)
  pointwise_init : Option (Option InitSpec)
  b_init : Option (Option InitSpec)
  act : Option (Option Activation)
  name : Option String
  inputs : Option Tensor
  outputs : Option Tensor
  local_weights : Option (List Variable)
  all_layers : List Tensor
  all_params : List Variable

/-- A freshly allocated SeparableConv2d instance. -/
def SeparableConv2d.fresh : SeparableConv2d :=
  { prev_layer := none, n_filter := none, filter_size := none, strides := none
  , padding := none, data_format := none, dilation_rate := none
  , depth_multiplier := none, depthwise_init := none, pointwise_init := none
  , b_init := none, act := none, name := none
  , inputs := none, outputs := none, local_weights := none
  , all_layers := [], all_params := [] }

/-- The instance after the thirteen attribute assignments of
SeparableConv2d.__init__ (source lines 231-243), run on a fresh instance. -/
def SeparableConv2d.ofArgs (a : Args2d) : SeparableConv2d :=
  { SeparableConv2d.fresh with
    prev_layer := some a.prev_layer
  , n_filter := some a.n_filter
  , filter_size := some a.filter_size
  , strides := some a.strides
  , padding := some a.padding
  , data_format := some a.data_format
  , dilation_rate := some a.dilation_rate
  , depth_multiplier := some a.depth_multiplier
  , depthwise_init := some a.depthwise_init
  , pointwise_init := some a.pointwise_init
  , b_init := some a.b_init
  , act := some a.act
  , name := some a.name }

/-- SeparableConv2d.__init__ run on a fresh instance: the data_format check,
then the padding check, then the attribute assignments. -/
def SeparableConv2d.initRun (a : Args2d) : SeparableConv2d × Option TLError :=
  if a.data_format ∈ ["channels_last", "channels_first"] then
    if pyLower a.padding ∈ ["same", "valid"] then
      (SeparableConv2d.ofArgs a, none)
    else (SeparableConv2d.fresh, some TLError.invalidPadding)
  else (SeparableConv2d.fresh, some TLError.invalidDataFormat)

/-- SeparableConv2d.__call__, mirroring the 1d version statement by
statement; line 315 likewise discards the result of _apply_activation. -/
def SeparableConv2d.call (l : SeparableConv2d) (primOut : Tensor → Tensor)
    (g : Graph) (prev_outputs : Tensor) (is_train : Bool) :
    Except PyError (SeparableConv2d × Graph) :=
  match l.name, l.n_filter, l.filter_size, l.strides, l.padding, l.data_format,
      l.dilation_rate, l.depth_multiplier, l.b_init, l.act with
  | some nm, some _nf, some _fs, some _st, some _pd, some _df, some _dr,
      some _dm, some b, some ac =>
    let l1 := { l with inputs := some prev_outputs }
    let prim := separableConvPrim primOut nm "separable_conv2d" prev_outputs
        (useBias b) is_train
    let g1 : Graph := { vars := g.vars ++ prim.created }
    let l2 := { l1 with outputs := some prim.output }
    let _activated := applyActivation ac prim.output
    let lw := getCollection g1 nm
    let l3 := { l2 with local_weights := some lw }
    let l4 := { l3 with all_layers := l3.all_layers ++ [prim.output]
                      , all_params := l3.all_params ++ lw }
    Except.ok (l4, g1)
  | _, _, _, _, _, _, _, _, _, _ => Except.error PyError.attributeError

/-- The additional_str list built by SeparableConv2d.__str__; the stride
entry is labelled stride (not strides) in the 2d source. -/
def SeparableConv2d.additionalStr (l : SeparableConv2d) : List String :=
  optEntry l.n_filter (fun v => "n_filter: " ++ toString v)
  ++ (optEntry l.filter_size (fun v => "filter_size: " ++ toString v)
  ++ (optEntry l.strides (fun v => "stride: " ++ toString v)
  ++ (optEntry l.padding (fun v => "padding: " ++ v)
  ++ (optEntry l.dilation_rate (fun v => "dilation_rate: " ++ toString v)
  ++ (optEntry l.depth_multiplier (fun v => "depth_multiplier: " ++ toString v)
  ++ actEntry l.act)))))

/-- SeparableConv2d.__str__: always returns a string. -/
def SeparableConv2d.describe (l : SeparableConv2d) : Except PyError String :=
  Except.ok (strRender "SeparableConv2d" l.additionalStr)

/-- A concrete non-identity activation, used to exhibit the discarded
activation result. -/
def incAct : Activation := ⟨"inc", fun x => x + 1⟩

/-- A SeparableConv1d constructed with default arguments plus the incAct
activation. -/
def actLayer1d : SeparableConv1d :=
  (SeparableConv1d.initRun { Args1d.default with act := some incAct }).1

/-- A SeparableConv2d constructed with default arguments plus the incAct
activation. -/
def actLayer2d : SeparableConv2d :=
  (SeparableConv2d.initRun { Args2d.default with act := some incAct }).1


/-! Helper lemmas shared by the claim theorems. -/

theorem init1dRun_ok (a : Args1d) (h : (SeparableConv1d.initRun a).2 = none) :
    (SeparableConv1d.initRun a).1 = SeparableConv1d.ofArgs a := by
  unfold SeparableConv1d.initRun at h ⊢
  split_ifs at h ⊢ <;> simp_all

theorem init2dRun_ok (a : Args2d) (h : (SeparableConv2d.initRun a).2 = none) :
    (SeparableConv2d.initRun a).1 = SeparableConv2d.ofArgs a := by
  unfold SeparableConv2d.initRun at h ⊢
  split_ifs at h ⊢ <;> simp_all

theorem call1d_ofArgs (a : Args1d) (f : Tensor → Tensor) (g : Graph)
    (x : Tensor) (tr : Bool) :
    SeparableConv1d.call (SeparableConv1d.ofArgs a) f g x tr =
      Except.ok
        ({ SeparableConv1d.ofArgs a with
            inputs := some x
          , outputs := some (f x)
          , local_weights := some (getCollection
              ⟨g.vars ++ (separableConvPrim f a.name "separable_conv1d" x
                  (useBias a.b_init) tr).created⟩ a.name)
          , all_layers := [f x]
          , all_params := getCollection
              ⟨g.vars ++ (separableConvPrim f a.name "separable_conv1d" x
                  (useBias a.b_init) tr).created⟩ a.name },
         ⟨g.vars ++ (separableConvPrim f a.name "separable_conv1d" x
             (useBias a.b_init) tr).created⟩) := rfl

theorem call2d_ofArgs (a : Args2d) (f : Tensor → Tensor) (g : Graph)
    (x : Tensor) (tr : Bool) :
    SeparableConv2d.call (SeparableConv2d.ofArgs a) f g x tr =
      Except.ok
        ({ SeparableConv2d.ofArgs a with
            inputs := some x
          , outputs := some (f x)
          , local_weights := some (getCollection
              ⟨g.vars ++ (separableConvPrim f a.name "separable_conv2d" x
                  (useBias a.b_init) tr).created⟩ a.name)
          , all_layers := [f x]
          , all_params := getCollection
              ⟨g.vars ++ (separableConvPrim f a.name "separable_conv2d" x
                  (useBias a.b_init) tr).created⟩ a.name },
         ⟨g.vars ++ (separableConvPrim f a.name "separable_conv2d" x
             (useBias a.b_init) tr).created⟩) := rfl

theorem call1d_shape (l : SeparableConv1d) (f : Tensor → Tensor) (g : Graph)
    (x : Tensor) (tr : Bool) :
    (∃ r, SeparableConv1d.call l f g x tr = Except.ok r) ∨
      SeparableConv1d.call l f g x tr = Except.error PyError.attributeError := by
  unfold SeparableConv1d.call
  (repeat' split) <;> simp

theorem call2d_shape (l : SeparableConv2d) (f : Tensor → Tensor) (g : Graph)
    (x : Tensor) (tr : Bool) :
    (∃ r, SeparableConv2d.call l f g x tr = Except.ok r) ∨
      SeparableConv2d.call l f g x tr = Except.error PyError.attributeError := by
  unfold SeparableConv2d.call
  (repeat' split) <;> simp

theorem length_optEntry {α : Type} (o : Option α) (f : α → String) :
    (optEntry o f).length = if o.isSome then 1 else 0 := by
  cases o <;> rfl

theorem length_actEntry (o : Option (Option Activation)) :
    (actEntry o).length = if o.isSome then 1 else 0 := by
  rcases o with _ | (_ | a) <;> rfl

/-! Claim theorems. -/

/-- C1: the claim fails on the code.  For a layer configured with the
non-trivial activation incAct and a primitive whose raw output on input [0]
is [0], __call__ registers outputs = [0], the raw primitive output, even
though the activated tensor would be [1]: the source computes
self._apply_activation(self.outputs) at lines 162/315 but discards the
returned tensor, so the registered output is never the activated tensor. -/
theorem C1_activation_result_discarded :
    (∃ r g, SeparableConv1d.call actLayer1d (fun t => t) Graph.empty [0] true
        = Except.ok (r, g)
      ∧ r.outputs = some [0]
      ∧ applyActivation (some incAct) [0] = [1]
      ∧ r.outputs ≠ some (applyActivation (some incAct) [0]))
    ∧ (∃ r g, SeparableConv2d.call actLayer2d (fun t => t) Graph.empty [0] true
        = Except.ok (r, g)
      ∧ r.outputs = some [0]
      ∧ r.outputs ≠ some (applyActivation (some incAct) [0])) :=
  ⟨⟨_, _, rfl, rfl, rfl, by decide⟩, ⟨_, _, rfl, rfl, by decide⟩⟩

/-- C2: on any successful construction and a graph holding no prior variable
in the layer's scope, __call__ registers as the layer's owned parameters
exactly the variables the primitive created in that scope: the depthwise
kernel, the pointwise kernel, and the bias exactly when a bias initializer
was supplied; and these are exactly the variables collected from the
scope. -/
theorem C2_registered_params_exact :
    (∀ (a : Args1d) (f : Tensor → Tensor) (g : Graph) (x : Tensor) (tr : Bool),
      (SeparableConv1d.initRun a).2 = none →
      getCollection g a.name = [] →
      ∃ r g2, SeparableConv1d.call (SeparableConv1d.initRun a).1 f g x tr
          = Except.ok (r, g2)
        ∧ r.all_params =
            [⟨a.name, "separable_conv1d/depthwise_kernel"⟩,
             ⟨a.name, "separable_conv1d/pointwise_kernel"⟩]
            ++ (if a.b_init.isSome then [⟨a.name, "separable_conv1d/bias"⟩] else [])
        ∧ r.local_weights = some r.all_params)
    ∧ (∀ (a : Args2d) (f : Tensor → Tensor) (g : Graph) (x : Tensor) (tr : Bool),
      (SeparableConv2d.initRun a).2 = none →
      getCollection g a.name = [] →
      ∃ r g2, SeparableConv2d.call (SeparableConv2d.initRun a).1 f g x tr
          = Except.ok (r, g2)
        ∧ r.all_params =
            [⟨a.name, "separable_conv2d/depthwise_kernel"⟩,
             ⟨a.name, "separable_conv2d/pointwise_kernel"⟩]
            ++ (if a.b_init.isSome then [⟨a.name, "separable_conv2d/bias"⟩] else [])
        ∧ r.local_weights = some r.all_params) := by
  constructor
  · intro a f g x tr h hg
    rw [init1dRun_ok a h, call1d_ofArgs a f g x tr]
    refine ⟨_, _, rfl, ?_, rfl⟩
    simp only [getCollection, separableConvPrim, List.filter_append] at hg ⊢
    rw [hg]
    cases hb : a.b_init <;> simp [hb, useBias]
  · intro a f g x tr h hg
    rw [init2dRun_ok a h, call2d_ofArgs a f g x tr]
    refine ⟨_, _, rfl, ?_, rfl⟩
    simp only [getCollection, separableConvPrim, List.filter_append] at hg ⊢
    rw [hg]
    cases hb : a.b_init <;> simp [hb, useBias]

/-- Witness for C2: with default arguments (bias initializer present), an
identity primitive, an empty graph and input [0], the registered parameters
are exactly the depthwise kernel, the pointwise kernel and the bias. -/
theorem C2_registered_params_exact_witness :
    ∃ r g2, SeparableConv1d.call (SeparableConv1d.initRun Args1d.default).1
        (fun t => t) Graph.empty [0] true = Except.ok (r, g2)
      ∧ r.all_params =
          [⟨"separable_conv1d", "separable_conv1d/depthwise_kernel"⟩,
           ⟨"separable_conv1d", "separable_conv1d/pointwise_kernel"⟩]
          ++ (if (Args1d.default).b_init.isSome then
              [⟨"separable_conv1d", "separable_conv1d/bias"⟩] else [])
      ∧ r.local_weights = some r.all_params :=
  C2_registered_params_exact.1 Args1d.default (fun t => t) Graph.empty [0] true
    (by decide) (by decide)

/-- C3: construction rejects every data_format outside
{channels_last, channels_first} with the invalid-data_format ValueError, and
never raises that error for the two exact values, for both classes. -/
theorem C3_data_format_validation :
    ∀ (a : Args1d) (b : Args2d),
      (a.data_format ∉ ["channels_last", "channels_first"] →
        (SeparableConv1d.initRun a).2 = some TLError.invalidDataFormat)
      ∧ (a.data_format ∈ ["channels_last", "channels_first"] →
        (SeparableConv1d.initRun a).2 ≠ some TLError.invalidDataFormat)
      ∧ (b.data_format ∉ ["channels_last", "channels_first"] →
        (SeparableConv2d.initRun b).2 = some TLError.invalidDataFormat)
      ∧ (b.data_format ∈ ["channels_last", "channels_first"] →
        (SeparableConv2d.initRun b).2 ≠ some TLError.invalidDataFormat) := by
  intro a b
  refine ⟨?_, ?_, ?_, ?_⟩ <;> intros <;>
    simp only [SeparableConv1d.initRun, SeparableConv2d.initRun] <;>
    split_ifs <;> simp_all

/-- Witness for C3: data_format NCHW is rejected with the
invalid-data_format error; the exact value channels_last is not. -/
theorem C3_data_format_validation_witness :
    (SeparableConv1d.initRun { Args1d.default with data_format := "NCHW" }).2
        = some TLError.invalidDataFormat
    ∧ (SeparableConv2d.initRun Args2d.default).2
        ≠ some TLError.invalidDataFormat :=
  ⟨(C3_data_format_validation { Args1d.default with data_format := "NCHW" }
      Args2d.default).1 (by decide),
   (C3_data_format_validation Args1d.default Args2d.default).2.2.2 (by decide)⟩

/-- C4: with a valid data_format, construction rejects every padding string
whose lowercase form is outside {same, valid} with the invalid-padding
ValueError, and the padding check accepts every string whose lowercase form
is same or valid (so every case variant), for both classes. -/
theorem C4_padding_validation :
    ∀ (a : Args1d) (b : Args2d),
      (a.data_format ∈ ["channels_last", "channels_first"] →
        pyLower a.padding ∉ ["same", "valid"] →
        (SeparableConv1d.initRun a).2 = some TLError.invalidPadding)
      ∧ (pyLower a.padding ∈ ["same", "valid"] →
        (SeparableConv1d.initRun a).2 ≠ some TLError.invalidPadding)
      ∧ (b.data_format ∈ ["channels_last", "channels_first"] →
        pyLower b.padding ∉ ["same", "valid"] →
        (SeparableConv2d.initRun b).2 = some TLError.invalidPadding)
      ∧ (pyLower b.padding ∈ ["same", "valid"] →
        (SeparableConv2d.initRun b).2 ≠ some TLError.invalidPadding) := by
  intro a b
  refine ⟨?_, ?_, ?_, ?_⟩ <;> intros <;>
    simp only [SeparableConv1d.initRun, SeparableConv2d.initRun] <;>
    split_ifs <;> simp_all

/-- Witness for C4: padding full is rejected with the invalid-padding
error; the case variants SAME and Valid pass the padding check. -/
theorem C4_padding_validation_witness :
    (SeparableConv1d.initRun { Args1d.default with padding := "full" }).2
        = some TLError.invalidPadding
    ∧ (SeparableConv1d.initRun { Args1d.default with padding := "SAME" }).2
        ≠ some TLError.invalidPadding
    ∧ (SeparableConv2d.initRun { Args2d.default with padding := "Valid" }).2
        ≠ some TLError.invalidPadding :=
  ⟨(C4_padding_validation { Args1d.default with padding := "full" }
      Args2d.default).1 (by decide) (by decide),
   (C4_padding_validation { Args1d.default with padding := "SAME" }
      Args2d.default).2.1 (by decide),
   (C4_padding_validation Args1d.default
      { Args2d.default with padding := "Valid" }).2.2.2 (by decide)⟩

/-- C5: the use_bias argument handed to the primitive is false exactly when
the bias initializer is None and true for any non-None initializer; and
consequently, on a successful construction applied over a graph with no
prior variable in the layer's scope, the bias variable is among the layer's
registered parameters exactly when a bias initializer was supplied. -/
theorem C5_use_bias_iff_b_init :
    (useBias none = false) ∧ (∀ i : InitSpec, useBias (some i) = true)
    ∧ (∀ (a : Args1d) (f : Tensor → Tensor) (g : Graph) (x : Tensor) (tr : Bool),
      (SeparableConv1d.initRun a).2 = none →
      getCollection g a.name = [] →
      ∃ r g2, SeparableConv1d.call (SeparableConv1d.initRun a).1 f g x tr
          = Except.ok (r, g2)
        ∧ (((⟨a.name, "separable_conv1d/bias"⟩ : Variable) ∈ r.all_params)
            ↔ a.b_init.isSome))
    ∧ (∀ (a : Args2d) (f : Tensor → Tensor) (g : Graph) (x : Tensor) (tr : Bool),
      (SeparableConv2d.initRun a).2 = none →
      getCollection g a.name = [] →
      ∃ r g2, SeparableConv2d.call (SeparableConv2d.initRun a).1 f g x tr
          = Except.ok (r, g2)
        ∧ (((⟨a.name, "separable_conv2d/bias"⟩ : Variable) ∈ r.all_params)
            ↔ a.b_init.isSome)) := by
  refine ⟨rfl, fun i => rfl, ?_, ?_⟩
  · intro a f g x tr h hg
    rw [init1dRun_ok a h, call1d_ofArgs a f g x tr]
    refine ⟨_, _, rfl, ?_⟩
    simp only [getCollection, separableConvPrim, List.filter_append] at hg ⊢
    rw [hg]
    cases hb : a.b_init <;> simp [hb, useBias, Variable.mk.injEq]
  · intro a f g x tr h hg
    rw [init2dRun_ok a h, call2d_ofArgs a f g x tr]
    refine ⟨_, _, rfl, ?_⟩
    simp only [getCollection, separableConvPrim, List.filter_append] at hg ⊢
    rw [hg]
    cases hb : a.b_init <;> simp [hb, useBias, Variable.mk.injEq]

/-- Witness for C5: with the default arguments (whose bias initializer is
the zero-fill one), applying the layer over an empty graph registers the
bias variable. -/
theorem C5_use_bias_iff_b_init_witness :
    ∃ r g2, SeparableConv1d.call (SeparableConv1d.initRun Args1d.default).1
        (fun t => t) Graph.empty [0] true = Except.ok (r, g2)
      ∧ (((⟨"separable_conv1d", "separable_conv1d/bias"⟩ : Variable)
            ∈ r.all_params) ↔ (Args1d.default).b_init.isSome) :=
  C5_use_bias_iff_b_init.2.2.1 Args1d.default (fun t => t) Graph.empty [0] true
    (by decide) (by decide)

/-- C6: fail-fast construction: whenever __init__ raises one of the two
configuration errors, the instance left behind has no attribute bound (it is
the fresh instance); and __call__ never raises a configuration ValueError
— its only failure mode is a missing-attribute error. -/
theorem C6_fail_fast_construction_only :
    (∀ (a : Args1d) (e : TLError), (SeparableConv1d.initRun a).2 = some e →
        (SeparableConv1d.initRun a).1 = SeparableConv1d.fresh)
    ∧ (∀ (b : Args2d) (e : TLError), (SeparableConv2d.initRun b).2 = some e →
        (SeparableConv2d.initRun b).1 = SeparableConv2d.fresh)
    ∧ (∀ (l : SeparableConv1d) (f : Tensor → Tensor) (g : Graph) (x : Tensor)
        (tr : Bool) (e : TLError),
        SeparableConv1d.call l f g x tr ≠ Except.error (PyError.valueError e))
    ∧ (∀ (m : SeparableConv2d) (f : Tensor → Tensor) (g : Graph) (x : Tensor)
        (tr : Bool) (e : TLError),
        SeparableConv2d.call m f g x tr ≠ Except.error (PyError.valueError e)) := by
  refine ⟨?_, ?_, ?_, ?_⟩
  · intro a e h
    unfold SeparableConv1d.initRun at h ⊢
    split_ifs at h ⊢ <;> simp_all
  · intro b e h
    unfold SeparableConv2d.initRun at h ⊢
    split_ifs at h ⊢ <;> simp_all
  · intro l f g x tr e
    rcases call1d_shape l f g x tr with ⟨r, hr⟩ | hr <;> simp [hr]
  · intro m f g x tr e
    rcases call2d_shape m f g x tr with ⟨r, hr⟩ | hr <;> simp [hr]

/-- Witness for C6: a construction failing the padding check leaves the
fresh, attribute-less instance behind. -/
theorem C6_fail_fast_construction_only_witness :
    (SeparableConv1d.initRun { Args1d.default with padding := "full" }).1
      = SeparableConv1d.fresh :=
  C6_fail_fast_construction_only.1 { Args1d.default with padding := "full" }
    TLError.invalidPadding (by decide)

/-- C7: on every successfully constructed layer, __call__ succeeds on any
input and training flag and returns the layer instance itself: the returned
object carries every configuration attribute of the instance unchanged. -/
theorem C7_returns_self :
    (∀ (a : Args1d) (f : Tensor → Tensor) (g : Graph) (x : Tensor) (tr : Bool),
      (SeparableConv1d.initRun a).2 = none →
      ∃ r g2, SeparableConv1d.call (SeparableConv1d.initRun a).1 f g x tr
          = Except.ok (r, g2)
        ∧ r.prev_layer = (SeparableConv1d.initRun a).1.prev_layer
        ∧ r.n_filter = (SeparableConv1d.initRun a).1.n_filter
        ∧ r.filter_size = (SeparableConv1d.initRun a).1.filter_size
        ∧ r.strides = (SeparableConv1d.initRun a).1.strides
        ∧ r.padding = (SeparableConv1d.initRun a).1.padding
        ∧ r.data_format = (SeparableConv1d.initRun a).1.data_format
        ∧ r.dilation_rate = (SeparableConv1d.initRun a).1.dilation_rate
        ∧ r.depth_multiplier = (SeparableConv1d.initRun a).1.depth_multiplier
        ∧ r.depthwise_init = (SeparableConv1d.initRun a).1.depthwise_init
        ∧ r.pointwise_init = (SeparableConv1d.initRun a).1.pointwise_init
        ∧ r.b_init = (SeparableConv1d.initRun a).1.b_init
        ∧ r.act = (SeparableConv1d.initRun a).1.act
        ∧ r.name = (SeparableConv1d.initRun a).1.name)
    ∧ (∀ (a : Args2d) (f : Tensor → Tensor) (g : Graph) (x : Tensor) (tr : Bool),
      (SeparableConv2d.initRun a).2 = none →
      ∃ r g2, SeparableConv2d.call (SeparableConv2d.initRun a).1 f g x tr
          = Except.ok (r, g2)
        ∧ r.prev_layer = (SeparableConv2d.initRun a).1.prev_layer
        ∧ r.n_filter = (SeparableConv2d.initRun a).1.n_filter
        ∧ r.filter_size = (SeparableConv2d.initRun a).1.filter_size
        ∧ r.strides = (SeparableConv2d.initRun a).1.strides
        ∧ r.padding = (SeparableConv2d.initRun a).1.padding
        ∧ r.data_format = (SeparableConv2d.initRun a).1.data_format
        ∧ r.dilation_rate = (SeparableConv2d.initRun a).1.dilation_rate
        ∧ r.depth_multiplier = (SeparableConv2d.initRun a).1.depth_multiplier
        ∧ r.depthwise_init = (SeparableConv2d.initRun a).1.depthwise_init
        ∧ r.pointwise_init = (SeparableConv2d.initRun a).1.pointwise_init
        ∧ r.b_init = (SeparableConv2d.initRun a).1.b_init
        ∧ r.act = (SeparableConv2d.initRun a).1.act
        ∧ r.name = (SeparableConv2d.initRun a).1.name) := by
  constructor
  · intro a f g x tr h
    rw [init1dRun_ok a h, call1d_ofArgs a f g x tr]
    exact ⟨_, _, rfl, rfl, rfl, rfl, rfl, rfl, rfl, rfl, rfl, rfl, rfl, rfl,
      rfl, rfl⟩
  · intro a f g x tr h
    rw [init2dRun_ok a h, call2d_ofArgs a f g x tr]
    exact ⟨_, _, rfl, rfl, rfl, rfl, rfl, rfl, rfl, rfl, rfl, rfl, rfl, rfl,
      rfl, rfl⟩

/-- Witness for C7: applying the default-constructed 2d layer returns an
instance whose configuration attributes are those of the instance. -/
theorem C7_returns_self_witness :
    ∃ r g2, SeparableConv2d.call (SeparableConv2d.initRun Args2d.default).1
        (fun t => t) Graph.empty [0] true = Except.ok (r, g2)
      ∧ r.prev_layer = (SeparableConv2d.initRun Args2d.default).1.prev_layer
      ∧ r.n_filter = (SeparableConv2d.initRun Args2d.default).1.n_filter
      ∧ r.filter_size = (SeparableConv2d.initRun Args2d.default).1.filter_size
      ∧ r.strides = (SeparableConv2d.initRun Args2d.default).1.strides
      ∧ r.padding = (SeparableConv2d.initRun Args2d.default).1.padding
      ∧ r.data_format = (SeparableConv2d.initRun Args2d.default).1.data_format
      ∧ r.dilation_rate = (SeparableConv2d.initRun Args2d.default).1.dilation_rate
      ∧ r.depth_multiplier
          = (SeparableConv2d.initRun Args2d.default).1.depth_multiplier
      ∧ r.depthwise_init = (SeparableConv2d.initRun Args2d.default).1.depthwise_init
      ∧ r.pointwise_init = (SeparableConv2d.initRun Args2d.default).1.pointwise_init
      ∧ r.b_init = (SeparableConv2d.initRun Args2d.default).1.b_init
      ∧ r.act = (SeparableConv2d.initRun Args2d.default).1.act
      ∧ r.name = (SeparableConv2d.initRun Args2d.default).1.name :=
  C7_returns_self.2 Args2d.default (fun t => t) Graph.empty [0] true (by decide)

/-- C8: __str__ never raises on any instance, applied or not — in
particular on a freshly constructed one — because every attribute access is
guarded; and the summary holds exactly one entry per bound described
attribute, so an attribute whose access fails contributes nothing. -/
theorem C8_describe_never_raises :
    ∀ (l : SeparableConv1d) (m : SeparableConv2d),
      (∃ s, SeparableConv1d.describe l = Except.ok s)
      ∧ (SeparableConv1d.additionalStr l).length =
          (if l.n_filter.isSome then 1 else 0)
          + ((if l.filter_size.isSome then 1 else 0)
          + ((if l.strides.isSome then 1 else 0)
          + ((if l.padding.isSome then 1 else 0)
          + ((if l.dilation_rate.isSome then 1 else 0)
          + ((if l.depth_multiplier.isSome then 1 else 0)
          + (if l.act.isSome then 1 else 0))))))
      ∧ (∃ s, SeparableConv2d.describe m = Except.ok s)
      ∧ (SeparableConv2d.additionalStr m).length =
          (if m.n_filter.isSome then 1 else 0)
          + ((if m.filter_size.isSome then 1 else 0)
          + ((if m.strides.isSome then 1 else 0)
          + ((if m.padding.isSome then 1 else 0)
          + ((if m.dilation_rate.isSome then 1 else 0)
          + ((if m.depth_multiplier.isSome then 1 else 0)
          + (if m.act.isSome then 1 else 0)))))) := by
  intro l m
  refine ⟨⟨_, rfl⟩, ?_, ⟨_, rfl⟩, ?_⟩ <;>
    simp [SeparableConv1d.additionalStr, SeparableConv2d.additionalStr,
      length_optEntry, length_actEntry]

/-- C9: the default-constructed layers store exactly the documented default
configuration: 100 filters, spatial size 3 or (3, 3), strides 1 or (1, 1),
padding valid, data_format channels_last, dilation 1 or (1, 1), depth
multiplier 1, the zero-fill bias initializer, and no activation. -/
theorem C9_default_configuration :
    (SeparableConv1d.initRun Args1d.default).2 = none
    ∧ (SeparableConv1d.initRun Args1d.default).1.n_filter = some 100
    ∧ (SeparableConv1d.initRun Args1d.default).1.filter_size = some 3
    ∧ (SeparableConv1d.initRun Args1d.default).1.strides = some 1
    ∧ (SeparableConv1d.initRun Args1d.default).1.padding = some "valid"
    ∧ (SeparableConv1d.initRun Args1d.default).1.data_format
        = some "channels_last"
    ∧ (SeparableConv1d.initRun Args1d.default).1.dilation_rate = some 1
    ∧ (SeparableConv1d.initRun Args1d.default).1.depth_multiplier = some 1
    ∧ (SeparableConv1d.initRun Args1d.default).1.b_init = some (some zerosInit)
    ∧ (SeparableConv1d.initRun Args1d.default).1.act = some none
    ∧ (SeparableConv2d.initRun Args2d.default).2 = none
    ∧ (SeparableConv2d.initRun Args2d.default).1.n_filter = some 100
    ∧ (SeparableConv2d.initRun Args2d.default).1.filter_size = some (3, 3)
    ∧ (SeparableConv2d.initRun Args2d.default).1.strides = some (1, 1)
    ∧ (SeparableConv2d.initRun Args2d.default).1.padding = some "valid"
    ∧ (SeparableConv2d.initRun Args2d.default).1.data_format
        = some "channels_last"
    ∧ (SeparableConv2d.initRun Args2d.default).1.dilation_rate = some (1, 1)
    ∧ (SeparableConv2d.initRun Args2d.default).1.depth_multiplier = some 1
    ∧ (SeparableConv2d.initRun Args2d.default).1.b_init = some (some zerosInit)
    ∧ (SeparableConv2d.initRun Args2d.default).1.act = some none :=
  ⟨rfl, rfl, rfl, rfl, rfl, rfl, rfl, rfl, rfl, rfl,
   rfl, rfl, rfl, rfl, rfl, rfl, rfl, rfl, rfl, rfl⟩

/-- C10: the data_format check is case-sensitive: any case variant of an
accepted value that is not exactly one of the two lowercase strings is
rejected with the invalid-data_format error, for both classes. -/
theorem C10_data_format_case_sensitive :
    ∀ (a : Args1d) (b : Args2d),
      (pyLower a.data_format ∈ ["channels_last", "channels_first"] →
        a.data_format ∉ ["channels_last", "channels_first"] →
        (SeparableConv1d.initRun a).2 = some TLError.invalidDataFormat)
      ∧ (pyLower b.data_format ∈ ["channels_last", "channels_first"] →
        b.data_format ∉ ["channels_last", "channels_first"] →
        (SeparableConv2d.initRun b).2 = some TLError.invalidDataFormat) := by
  intro a b
  constructor <;> intros <;>
    simp only [SeparableConv1d.initRun, SeparableConv2d.initRun] <;>
    split_ifs <;> simp_all

/-- Witness for C10: Channels_Last lowercases to an accepted value yet is
rejected with the invalid-data_format error. -/
theorem C10_data_format_case_sensitive_witness :
    (SeparableConv1d.initRun { Args1d.default with
        data_format := "Channels_Last" }).2 = some TLError.invalidDataFormat
    ∧ (SeparableConv2d.initRun { Args2d.default with
        data_format := "CHANNELS_FIRST" }).2 = some TLError.invalidDataFormat :=
  ⟨(C10_data_format_case_sensitive
      { Args1d.default with data_format := "Channels_Last" }
      { Args2d.default with data_format := "CHANNELS_FIRST" }).1
      (by decide) (by decide),
   (C10_data_format_case_sensitive
      { Args1d.default with data_format := "Channels_Last" }
      { Args2d.default with data_format := "CHANNELS_FIRST" }).2
      (by decide) (by decide)⟩
